import Mathlib

/-!
Verification of the meeting-recorder session controller and its platform
adapters (Google Meet, Zoom web client, WhatsApp Web).

The JavaScript source is shallowly embedded: JS strings are modelled as
`List Char`, JS `String.prototype.includes` as `jsIncludes`,
`String.prototype.toLowerCase` as a character-wise ASCII lowercase
(`jsToLower`; all strings the matcher is used with are ASCII or Hebrew,
on which the two agree), and the specific regular expressions the source
builds (`_matchPattern`'s glob regex, `ZoomPlatform.normalizeUrl`'s
`/(https:\/\/[^/]+)\/j\/(\d+)(.*)/`) are modelled by direct executable
matchers with the same semantics.  The session controller (`meeting-bot.js`)
and the watcher daemon's startup (`whatsapp-watcher.js`) are modelled as
pure functions from an environment (adapter behaviour, poll-tick
observations, filesystem facts) to the trace of collaborator invocations
and the final bot state; thrown JS exceptions are modelled with `Except`.
-/

/-- JS `hay.includes(needle)` on strings: substring containment. -/
def jsIncludes : List Char → List Char → Bool
  | [], needle => needle.isEmpty
  | a :: t, needle => needle.isPrefixOf (a :: t) || jsIncludes t needle

/-- JS `String.prototype.toLowerCase`, character-wise (ASCII-faithful). -/
def jsToLower (s : List Char) : List Char := s.map Char.toLower

/-- Characters matched by an un-flagged JS regex `.`: anything but a line
terminator. -/
def jsDotChar (c : Char) : Bool :=
  !(c == '\n' || c == '\r' || c == ' ' || c == ' ')

/-- Search for a split point for a `.*` gap: try to continue the match
(`k`) at every suffix reachable by consuming `.`-matchable characters. -/
def globSearch (k : List Char → Bool) : List Char → Bool
  | [] => k []
  | c :: cs => k (c :: cs) || (jsDotChar c && globSearch k cs)

/-- Anchored match of the regex `^seg₀.*seg₁.*⋯.*segₙ$` (the regex
`_matchPattern` builds from a wildcard pattern, whose literal segments are
the pattern split on `*` with every other character escaped). -/
def globMatch : List (List Char) → List Char → Bool
  | [], s => s.isEmpty
  | [seg], s => s == seg
  | seg1 :: seg2 :: rest, s =>
    seg1.isPrefixOf s &&
      globSearch (fun t => globMatch (seg2 :: rest) t) (s.drop seg1.length)

namespace WhatsAppPlatform

/-- `WhatsAppPlatform._matchPattern(str, pattern)` from
`src/platforms/whatsapp.js`: `"*"` matches everything; a pattern containing
`*` is turned into an anchored regex with `*` ↦ `.*` and every other
character escaped; a wildcard-free pattern is a substring test. -/
def matchPattern (str pattern : List Char) : Bool :=
  if pattern == ['*'] then true
  else if pattern.contains '*' then globMatch (pattern.splitOn '*') str
  else jsIncludes str pattern

/-- `WhatsAppPlatform.isCallerAllowed(caller, allowList, blockList)` from
`src/platforms/whatsapp.js`.  A falsy caller (empty string) is allowed only
when the allow list is empty; otherwise the block list is checked first
(block wins), an empty allow list allows everything not blocked, and a
non-empty allow list requires a match. -/
def isCallerAllowed (caller : List Char) (allowList blockList : List (List Char)) : Bool :=
  if caller.isEmpty then allowList.isEmpty
  else
    let callerLower := jsToLower caller
    if blockList.any (fun pattern => matchPattern callerLower (jsToLower pattern)) then false
    else if allowList.isEmpty then true
    else allowList.any (fun pattern => matchPattern callerLower (jsToLower pattern))

end WhatsAppPlatform

section StringLemmas

/-- `jsIncludes` decides list-infix containment. -/
theorem jsIncludes_eq_true_iff (needle hay : List Char) :
    jsIncludes hay needle = true ↔ needle <:+: hay := by
  induction hay with
  | nil =>
    simp [jsIncludes, List.infix_nil, List.isEmpty_iff]
  | cons a t ih =>
    simp [jsIncludes, List.infix_cons_iff, ih, Bool.or_eq_true,
      List.isPrefixOf_iff_prefix]

/-- Converting a valid small code point back to `Nat` is the identity. -/
theorem toNat_ofNat_small (n : Nat) (h1 : 65 ≤ n) (h2 : n ≤ 90) :
    (Char.ofNat (n + 32)).toNat = n + 32 := by
  have hv : Nat.isValidChar (n + 32) := by left; omega
  simp [Char.ofNat, hv, Char.ofNatAux, Char.toNat, UInt32.toNat,
    BitVec.toNat_ofNatLt]

/-- ASCII lowercase never produces a `'*'` from another character. -/
theorem toLower_eq_star (c : Char) (h : Char.toLower c = '*') : c = '*' := by
  unfold Char.toLower at h
  by_cases hc : c.toNat ≥ 65 ∧ c.toNat ≤ 90
  · exfalso
    rw [if_pos hc] at h
    have h42 := toNat_ofNat_small c.toNat hc.1 hc.2
    rw [h] at h42
    have hstar : ('*').toNat = 42 := rfl
    omega
  · rw [if_neg hc] at h
    exact h

/-- Lowercasing a wildcard-free pattern keeps it wildcard-free. -/
theorem jsToLower_contains_star (p : List Char) (h : p.contains '*' = false) :
    (jsToLower p).contains '*' = false := by
  rw [Bool.eq_false_iff] at h ⊢
  intro hmem
  apply h
  rw [List.contains_eq_any_beq] at hmem ⊢
  rw [List.any_eq_true] at hmem ⊢
  obtain ⟨c, hc, hcx⟩ := hmem
  rw [jsToLower, List.mem_map] at hc
  obtain ⟨c0, hc0, hlow⟩ := hc
  refine ⟨c0, hc0, ?_⟩
  have : c = '*' := (by simpa using hcx : '*' = c).symm
  subst this
  have : c0 = '*' := toLower_eq_star c0 hlow
  simp [this]

end StringLemmas

namespace WhatsAppPlatform

/-- Abstraction of the page state inspected by
`WhatsAppPlatform.checkCallEnded`'s `page.evaluate` closure: the visible
body text, whether some `[data-icon]` element's icon name contains
`call-end` / `end-call` / `hangup`, and whether the main chat interface
markers (`pane-side`, the search icon, `role="grid"`) are present in the
HTML.  `evalThrows` models the `page.evaluate` call itself throwing. -/
structure WaPage where
  bodyText : List Char
  hasEndCallIcon : Bool
  hasMainChatUI : Bool
  evalThrows : Bool

/-- The explicit end-of-call text patterns of `checkCallEnded` (matched
against the lowercased visible text). -/
def waEndPatterns : List (List Char) :=
  ["call ended".data, "call was missed".data, "call failed".data,
   "unavailable".data, "no answer".data,
   "שיחה הסתיימה".data, "השיחה הסתיימה".data, "שיחה שלא נענתה".data]

/-- `WhatsAppPlatform.checkCallEnded(hasJoinedBefore)` from
`src/platforms/whatsapp.js` (also `checkMeetingEnded`, which delegates to
it): signal 1 is an explicit end text in the lowercased visible text;
signal 2/3 report "ended" when no end-call button icon is present but the
main chat interface is back; a thrown page evaluation is treated as ended
exactly when `hasJoinedBefore` is set. -/
def checkCallEnded (hasJoinedBefore : Bool) (p : WaPage) : Bool :=
  if p.evalThrows then hasJoinedBefore
  else if waEndPatterns.any (fun pat => jsIncludes (jsToLower p.bodyText) pat) then true
  else if !p.hasEndCallIcon && p.hasMainChatUI then true
  else false

/-- `WhatsAppPlatform.normalizeUrl` from `src/platforms/whatsapp.js`:
always the WhatsApp Web root. -/
def normalizeUrl (_url : List Char) : List Char := "https://web.whatsapp.com".data

end WhatsAppPlatform

namespace BasePlatform

/-- `BasePlatform.normalizeUrl` from `src/platforms/base.js`: identity. -/
def normalizeUrl (url : List Char) : List Char := url

end BasePlatform

namespace ZoomPlatform

/-- Decimal digits, the JS regex class `\d`. -/
def isDigit (c : Char) : Bool := '0' ≤ c && c ≤ '9'

/-- Try to match the regex `(https:\/\/[^/]+)\/j\/(\d+)(.*)` at the start
of `s`, returning the three capture groups.  `[^/]+` is greedy and can
never consume a `/`, and `\d+` is greedy followed by `.*`, so the greedy
scans below are exactly the backtracking regex semantics. -/
def jUrlMatchAt (s : List Char) : Option (List Char × List Char × List Char) :=
  if "https://".data.isPrefixOf s then
    let s1 := s.drop 8
    let host := s1.takeWhile (fun c => !(c == '/'))
    if host.isEmpty then none
    else
      let s2 := s1.drop host.length
      if "/j/".data.isPrefixOf s2 then
        let s3 := s2.drop 3
        let digits := s3.takeWhile isDigit
        if digits.isEmpty then none
        else
          let s4 := s3.drop digits.length
          some ("https://".data ++ host, digits, s4.takeWhile jsDotChar)
      else none
  else none

/-- Leftmost match of `(https:\/\/[^/]+)\/j\/(\d+)(.*)` in `url`
(JS `String.prototype.match` with a non-global regex). -/
def jUrlMatch (url : List Char) : Option (List Char × List Char × List Char) :=
  (List.range (url.length + 1)).findSome? (fun i => jUrlMatchAt (url.drop i))

/-- `ZoomPlatform.normalizeUrl` from `src/platforms/zoom.js`: URLs already
in `/wc/join/` form pass through; `/j/<digits>` URLs are rewritten to
`<host>/wc/join/<digits><rest>`; anything else passes through. -/
def normalizeUrl (url : List Char) : List Char :=
  if jsIncludes url "/wc/join/".data then url
  else
    match jUrlMatch url with
    | some (host, meetingId, rest) => host ++ "/wc/join/".data ++ meetingId ++ rest
    | none => url

end ZoomPlatform

namespace MeetingBot

/-- Collaborator invocations and externally visible effects of the
controller (`meeting-bot.js`) and the watcher daemon
(`whatsapp-watcher.js`), in the order they are performed. -/
inductive Ev where
  | connectBrowser
  | setupAudio
  | startRecording
  | navigate
  | clickJoin
  | waitForAdmission
  | routeAudio
  | monitorEnter
  | monitorTick
  | stopRecording
  | transcribe
  | deleteRecording
  | writeSession
  | exit (code : Nat)
  | writePid
  deriving DecidableEq, Repr

/-- First process-exit code in a trace. -/
def exitCode (tr : List Ev) : Option Nat :=
  tr.findSome? (fun e => match e with | .exit c => some c | _ => none)

/-- The mutable `MeetingBot` session fields the lifecycle logic reads and
writes.  `recordingPath` abstracts the path being set (non-null); `now`
is the current clock in milliseconds (`Date.now()`), advanced by the
explicit waits. -/
structure BotState where
  isInMeeting : Bool
  hasJoinedMeeting : Bool
  leftDueToEmptyTimeout : Bool
  emptyMeetingSince : Option Nat
  recordingPath : Bool
  now : Nat
  deriving DecidableEq, Repr

/-- The fresh state built in the `MeetingBot` constructor. -/
def initialState : BotState :=
  ⟨false, false, false, none, false, 0⟩

/-- The `config.meeting` section as the source reads it with optional
chaining: absent fields are `none`. -/
structure MeetingConfig where
  emptyTimeoutMinutes : Option Nat
  skipTranscriptionOnEmptyLeave : Option Bool
  deriving DecidableEq, Repr

/-- `config.meeting?.emptyTimeoutMinutes || 15`: JS `||` also replaces a
configured `0` by the default. -/
def resolvedEmptyTimeoutMinutes (cfg : MeetingConfig) : Nat :=
  match cfg.emptyTimeoutMinutes with
  | none => 15
  | some n => if n == 0 then 15 else n

/-- The empty-meeting timeout in milliseconds. -/
def emptyTimeoutMs (cfg : MeetingConfig) : Nat :=
  resolvedEmptyTimeoutMinutes cfg * 60 * 1000

/-- `config.meeting?.skipTranscriptionOnEmptyLeave !== false` — the
policy defaults to skipping. -/
def skipOnEmpty (cfg : MeetingConfig) : Bool :=
  cfg.skipTranscriptionOnEmptyLeave != some false

/-- The poll interval of the monitoring loop (ms). -/
def pollIntervalMs : Nat := 5000

/-- What the two adapter probes of one monitoring poll tick return;
`Except.error` models the call throwing. -/
structure TickObs where
  checkEnded : Except Unit Bool
  partCount : Except Unit Int
  deriving Repr

/-- Outcome of one iteration of the `monitorMeeting` while-loop body. -/
inductive TickRes where
  | next (st : BotState)
  | endedNormally (st : BotState)
  | emptiedOut (st : BotState)
  | threw (st : BotState)
  deriving DecidableEq, Repr

/-- One iteration of the `monitorMeeting` loop body
(`src/meeting-bot.js`, the `while (this.isInMeeting)` body): wait the poll
interval, check `checkMeetingEnded` (NOT wrapped in try/catch — a throw
propagates), then inside a try/catch check `getParticipantCount`: `0`
starts or advances the empty timer and fires the empty timeout, a positive
count clears the timer, `-1` (and a thrown call) changes nothing. -/
def monitorTick (cfg : MeetingConfig) (st : BotState) (obs : TickObs) : TickRes :=
  let st := { st with now := st.now + pollIntervalMs }
  match obs.checkEnded with
  | .error _ => .threw st
  | .ok true => .endedNormally { st with isInMeeting := false }
  | .ok false =>
    match obs.partCount with
    | .error _ => .next st
    | .ok n =>
      if n = 0 then
        match st.emptyMeetingSince with
        | none => .next { st with emptyMeetingSince := some st.now }
        | some since =>
          if st.now - since ≥ emptyTimeoutMs cfg then
            .emptiedOut { st with isInMeeting := false, leftDueToEmptyTimeout := true }
          else .next st
      else if n > 0 then .next { st with emptyMeetingSince := none }
      else .next st

/-- `MeetingBot.cleanup` (`src/meeting-bot.js`), at collaborator
granularity: stop the recording (which nulls the path when the file is
missing or empty — `fsRecordingOk` is that filesystem fact), then either
delete the recording (empty-timeout leave under the default skip policy)
or transcribe it, then write the session record and exit 0. -/
def cleanup (cfg : MeetingConfig) (fsRecordingOk : Bool) (st : BotState) :
    List Ev × BotState :=
  let rp := st.recordingPath && fsRecordingOk
  let skipT := st.leftDueToEmptyTimeout && skipOnEmpty cfg
  let evs :=
    [Ev.stopRecording] ++
      (if skipT then (if rp then [Ev.deleteRecording] else [])
       else if rp then [Ev.transcribe] else []) ++
      [Ev.writeSession, Ev.exit 0]
  (evs, { st with recordingPath := rp })

/-- The `monitorMeeting` while-loop over a finite stream of poll
observations.  Returns the emitted events, the final state, and whether a
`checkMeetingEnded` throw escaped the loop (to be caught by `run`). -/
def monitorLoop (cfg : MeetingConfig) (fsRecordingOk : Bool) :
    BotState → List TickObs → List Ev × BotState × Bool
  | st, [] => ([], st, false)
  | st, obs :: rest =>
    if st.isInMeeting then
      match monitorTick cfg st obs with
      | .next st' =>
        let r := monitorLoop cfg fsRecordingOk st' rest
        (Ev.monitorTick :: r.1, r.2)
      | .endedNormally st' =>
        let c := cleanup cfg fsRecordingOk st'
        (Ev.monitorTick :: c.1, c.2, false)
      | .emptiedOut st' =>
        let c := cleanup cfg fsRecordingOk st'
        (Ev.monitorTick :: c.1, c.2, false)
      | .threw st' => ([Ev.monitorTick], st', true)
    else ([], st, false)

/-- `MeetingBot.monitorMeeting`: an initial 10 s settle wait, then the
poll loop. -/
def monitorMeeting (cfg : MeetingConfig) (fsRecordingOk : Bool)
    (st : BotState) (ticks : List TickObs) : List Ev × BotState × Bool :=
  let r := monitorLoop cfg fsRecordingOk { st with now := st.now + 10000 } ticks
  (Ev.monitorEnter :: r.1, r.2)

/-- `ZoomPlatform.waitForAdmission`'s possible resolutions. -/
inductive AdmissionResult where
  | admitted
  | ended
  | timeout
  | notWaiting
  deriving DecidableEq, Repr

/-- The behaviour of the resolved platform adapter as the join flow
observes it: whether it exposes `waitForAdmission`, what that resolves to,
and what `verifyInMeeting` reports. -/
structure AdapterBeh where
  hasWaitForAdmission : Bool
  admission : AdmissionResult
  verifyInMeeting : Bool
  deriving DecidableEq, Repr

/-- Result of `MeetingBot.joinMeeting`: either control returns to `run`
(and monitoring starts), or `cleanup` ran inside `joinMeeting` and the
process exited there. -/
inductive JoinRes where
  | proceeded (evs : List Ev) (st : BotState)
  | exited (evs : List Ev) (st : BotState)
  deriving DecidableEq, Repr

/-- The tail of `MeetingBot.joinMeeting` shared by the no-waiting-room
path and the `"not_waiting"` admission result: `verifyInMeeting` marks the
session joined on success but the bot proceeds (optimistically, flagged
unconfirmed) either way, and audio routing starts. -/
def joinVerify (a : AdapterBeh) (st : BotState) : List Ev × BotState :=
  if a.verifyInMeeting then
    ([Ev.routeAudio], { st with hasJoinedMeeting := true, isInMeeting := true })
  else
    ([Ev.routeAudio], { st with isInMeeting := true })

/-- `MeetingBot.joinMeeting` (`src/meeting-bot.js`): navigate, dismiss /
name / mute steps, click join; then, when the adapter exposes
`waitForAdmission`: `admitted` joins and routes audio, `ended` / `timeout`
record never-joined and run `cleanup` (which exits the process),
`not_waiting` falls through to the generic verification. -/
def joinMeeting (cfg : MeetingConfig) (fsRecordingOk : Bool)
    (a : AdapterBeh) (st : BotState) : JoinRes :=
  let evs := [Ev.navigate, Ev.clickJoin]
  if a.hasWaitForAdmission then
    match a.admission with
    | .admitted =>
      .proceeded (evs ++ [Ev.waitForAdmission, Ev.routeAudio])
        { st with hasJoinedMeeting := true, isInMeeting := true }
    | .ended =>
      let st' := { st with isInMeeting := false, hasJoinedMeeting := false }
      let c := cleanup cfg fsRecordingOk st'
      .exited (evs ++ [Ev.waitForAdmission] ++ c.1) c.2
    | .timeout =>
      let st' := { st with isInMeeting := false, hasJoinedMeeting := false }
      let c := cleanup cfg fsRecordingOk st'
      .exited (evs ++ [Ev.waitForAdmission] ++ c.1) c.2
    | .notWaiting =>
      let v := joinVerify a st
      .proceeded (evs ++ [Ev.waitForAdmission] ++ v.1) v.2
  else
    let v := joinVerify a st
    .proceeded (evs ++ v.1) v.2

/-- The environment one `MeetingBot.run` execution observes: whether the
browser attach succeeds, the adapter behaviour, the stream of monitoring
poll observations, the config, and whether the recording file ends up
non-empty on disk. -/
structure RunEnv where
  initOk : Bool
  adapter : AdapterBeh
  ticks : List TickObs
  cfg : MeetingConfig
  fsRecordingOk : Bool
  deriving Repr

/-- `MeetingBot.run` (`src/meeting-bot.js`): `init` (browser attach),
`setupAudio`, `startRecording`, `joinMeeting`, `monitorMeeting`; the
top-level catch routes ANY thrown error (a failed attach, or a throw that
escaped the monitor loop) into `cleanup`, which writes the session record
and exits 0. -/
def run (env : RunEnv) : List Ev × BotState :=
  if env.initOk then
    let evs0 := [Ev.connectBrowser, Ev.setupAudio, Ev.startRecording]
    let st1 := { initialState with recordingPath := true }
    match joinMeeting env.cfg env.fsRecordingOk env.adapter st1 with
    | .exited jevs st2 => (evs0 ++ jevs, st2)
    | .proceeded jevs st2 =>
      let m := monitorMeeting env.cfg env.fsRecordingOk st2 env.ticks
      if m.2.2 then
        let c := cleanup env.cfg env.fsRecordingOk m.2.1
        (evs0 ++ jevs ++ m.1 ++ c.1, c.2)
      else (evs0 ++ jevs ++ m.1, m.2.1)
  else
    let c := cleanup env.cfg env.fsRecordingOk initialState
    (c.1, c.2)

end MeetingBot

namespace WhatsAppWatcher

/-- The startup facts `WhatsAppWatcher.run` observes: whether
`connectBrowser` (puppeteer attach) succeeds, whether WhatsApp Web can be
opened, and whether authentication completes within the bound. -/
structure StartEnv where
  connectOk : Bool
  openOk : Bool
  authOk : Bool
  deriving DecidableEq, Repr

/-- Outcome of the watcher's startup sequence. -/
inductive StartOutcome where
  | exitedWith (code : Nat)
  | enteredLoop
  deriving DecidableEq, Repr

/-- The startup sequence of `WhatsAppWatcher.run`
(`src/whatsapp-watcher.js`, before the main polling loop): write the PID
file, connect to the browser (failure → `process.exit(1)`), open WhatsApp
Web (failure → exit 1), wait for authentication (failure → exit 1), then
enter the polling loop.  No session record is written on any of these
paths. -/
def runStartup (env : StartEnv) : List MeetingBot.Ev × StartOutcome :=
  if env.connectOk then
    if env.openOk then
      if env.authOk then
        ([MeetingBot.Ev.writePid, MeetingBot.Ev.connectBrowser], .enteredLoop)
      else
        ([MeetingBot.Ev.writePid, MeetingBot.Ev.connectBrowser, MeetingBot.Ev.exit 1],
          .exitedWith 1)
    else
      ([MeetingBot.Ev.writePid, MeetingBot.Ev.connectBrowser, MeetingBot.Ev.exit 1],
        .exitedWith 1)
  else
    ([MeetingBot.Ev.writePid, MeetingBot.Ev.exit 1], .exitedWith 1)

end WhatsAppWatcher

section AdapterClaims

/-- Helper: a rewritten Zoom URL always contains the `/wc/join/` marker,
so a second `normalizeUrl` passes it through unchanged. -/
theorem zoom_rewrite_contains (host mid rest : List Char) :
    jsIncludes (host ++ "/wc/join/".data ++ mid ++ rest) "/wc/join/".data = true := by
  rw [jsIncludes_eq_true_iff]
  have h := List.infix_append host "/wc/join/".data (mid ++ rest)
  simpa [List.append_assoc] using h

/-- C9: for the base adapter, the WhatsApp adapter and the Zoom adapter,
`normalizeUrl` is idempotent on every input URL. -/
theorem c9_normalizeUrl_idempotent (u : List Char) :
    BasePlatform.normalizeUrl (BasePlatform.normalizeUrl u) = BasePlatform.normalizeUrl u ∧
    WhatsAppPlatform.normalizeUrl (WhatsAppPlatform.normalizeUrl u) =
      WhatsAppPlatform.normalizeUrl u ∧
    ZoomPlatform.normalizeUrl (ZoomPlatform.normalizeUrl u) = ZoomPlatform.normalizeUrl u := by
  refine ⟨rfl, rfl, ?_⟩
  by_cases h1 : jsIncludes u "/wc/join/".data = true
  · simp [ZoomPlatform.normalizeUrl, h1]
  · rcases hm : ZoomPlatform.jUrlMatch u with _ | ⟨host, mid, rest⟩
    · simp [ZoomPlatform.normalizeUrl, h1, hm]
    · have hval : ZoomPlatform.normalizeUrl u = host ++ "/wc/join/".data ++ mid ++ rest := by
        simp [ZoomPlatform.normalizeUrl, h1, hm]
      rw [hval]
      unfold ZoomPlatform.normalizeUrl
      rw [if_pos (zoom_rewrite_contains host mid rest)]

/-- C8: `_matchPattern` examples — `"+1*"` matches `"+15551234567"`, does
not match `"+447700900000"`, and `"*"` matches every string including the
empty one. -/
theorem c8_wildcard_examples :
    WhatsAppPlatform.matchPattern "+15551234567".data "+1*".data = true ∧
    WhatsAppPlatform.matchPattern "+447700900000".data "+1*".data = false ∧
    (∀ s : List Char, WhatsAppPlatform.matchPattern s "*".data = true) :=
  ⟨by decide, by decide, fun _ => rfl⟩

/-- C7: allow/block evaluation — a caller matching patterns on both lists
is declined (block precedence); a caller matching neither list is declined
when the allow list is non-empty and answered when it is empty. -/
theorem c7_allow_block_evaluation (caller : List Char) (allow block : List (List Char))
    (hc : caller ≠ []) :
    ((∃ p ∈ allow, WhatsAppPlatform.matchPattern (jsToLower caller) (jsToLower p) = true) →
      (∃ q ∈ block, WhatsAppPlatform.matchPattern (jsToLower caller) (jsToLower q) = true) →
      WhatsAppPlatform.isCallerAllowed caller allow block = false) ∧
    ((∀ p ∈ allow, WhatsAppPlatform.matchPattern (jsToLower caller) (jsToLower p) = false) →
      (∀ q ∈ block, WhatsAppPlatform.matchPattern (jsToLower caller) (jsToLower q) = false) →
      allow ≠ [] → WhatsAppPlatform.isCallerAllowed caller allow block = false) ∧
    ((∀ p ∈ allow, WhatsAppPlatform.matchPattern (jsToLower caller) (jsToLower p) = false) →
      (∀ q ∈ block, WhatsAppPlatform.matchPattern (jsToLower caller) (jsToLower q) = false) →
      allow = [] → WhatsAppPlatform.isCallerAllowed caller allow block = true) := by
  have hce : caller.isEmpty = false := by
    cases caller with
    | nil => exact absurd rfl hc
    | cons a t => rfl
  refine ⟨?_, ?_, ?_⟩
  · rintro - ⟨q, hq, hmq⟩
    have hb : block.any
        (fun pattern => WhatsAppPlatform.matchPattern (jsToLower caller) (jsToLower pattern)) = true :=
      List.any_eq_true.mpr ⟨q, hq, hmq⟩
    simp [WhatsAppPlatform.isCallerAllowed, hce, hb]
  · intro hA hB hne
    have hb : block.any
        (fun pattern => WhatsAppPlatform.matchPattern (jsToLower caller) (jsToLower pattern)) = false := by
      rw [List.any_eq_false]
      intro q hq
      simp [hB q hq]
    have ha : allow.any
        (fun pattern => WhatsAppPlatform.matchPattern (jsToLower caller) (jsToLower pattern)) = false := by
      rw [List.any_eq_false]
      intro p hp
      simp [hA p hp]
    have hae : allow.isEmpty = false := by
      cases allow with
      | nil => exact absurd rfl hne
      | cons a t => rfl
    simp [WhatsAppPlatform.isCallerAllowed, hce, hb, ha, hae]
  · intro hA hB hempty
    subst hempty
    have hb : block.any
        (fun pattern => WhatsAppPlatform.matchPattern (jsToLower caller) (jsToLower pattern)) = false := by
      rw [List.any_eq_false]
      intro q hq
      simp [hB q hq]
    simp [WhatsAppPlatform.isCallerAllowed, hce, hb]

/-- C7 witness: the three branches at concrete callers and lists. -/
theorem c7_witness :
    WhatsAppPlatform.isCallerAllowed "+15551234567".data ["+1*".data] ["+1555*".data] = false ∧
    WhatsAppPlatform.isCallerAllowed "+49301234".data ["+1*".data] ["+1555*".data] = false ∧
    WhatsAppPlatform.isCallerAllowed "+49301234".data [] ["+1555*".data] = true :=
  ⟨(c7_allow_block_evaluation "+15551234567".data ["+1*".data] ["+1555*".data]
      (by decide)).1
      ⟨"+1*".data, by decide, by decide⟩ ⟨"+1555*".data, by decide, by decide⟩,
   (c7_allow_block_evaluation "+49301234".data ["+1*".data] ["+1555*".data]
      (by decide)).2.1
      (by intro p hp; simp at hp; subst hp; decide)
      (by intro q hq; simp at hq; subst hq; decide)
      (by decide),
   (c7_allow_block_evaluation "+49301234".data [] ["+1555*".data]
      (by decide)).2.2
      (by intro p hp; simp at hp)
      (by intro q hq; simp at hq; subst hq; decide)
      rfl⟩

/-- C10 (implicit): a wildcard-free pattern is, as used by the matcher, a
case-insensitive substring test — it matches exactly when the lowercased
pattern occurs anywhere inside the lowercased caller — and consequently a
wildcard-free block-list entry declines every caller whose lowercased
identifier contains it. -/
theorem c10_substring_matching (p caller : List Char) (allow block : List (List Char))
    (hw : p.contains '*' = false) :
    (WhatsAppPlatform.matchPattern (jsToLower caller) (jsToLower p) = true ↔
      jsToLower p <:+: jsToLower caller) ∧
    (p ∈ block → jsToLower p <:+: jsToLower caller → caller ≠ [] →
      WhatsAppPlatform.isCallerAllowed caller allow block = false) := by
  have hw' : (jsToLower p).contains '*' = false := jsToLower_contains_star p hw
  have hne : ((jsToLower p) == ['*']) = false := by
    rcases h : (jsToLower p) == ['*'] with - | -
    · rfl
    · exfalso
      have : jsToLower p = ['*'] := by simpa using h
      rw [this] at hw'
      simp [List.contains_eq_any_beq] at hw'
  have hiff : WhatsAppPlatform.matchPattern (jsToLower caller) (jsToLower p) = true ↔
      jsToLower p <:+: jsToLower caller := by
    rw [WhatsAppPlatform.matchPattern]
    simp only [hne, Bool.false_eq_true, if_false, hw']
    exact jsIncludes_eq_true_iff (jsToLower p) (jsToLower caller)
  refine ⟨hiff, fun hmem hinf hc => ?_⟩
  have hce : caller.isEmpty = false := by
    cases caller with
    | nil => exact absurd rfl hc
    | cons a t => rfl
  have hb : block.any
      (fun pattern => WhatsAppPlatform.matchPattern (jsToLower caller) (jsToLower pattern)) = true :=
    List.any_eq_true.mpr ⟨p, hmem, hiff.mpr hinf⟩
  simp [WhatsAppPlatform.isCallerAllowed, hce, hb]

/-- C10 witness: `"555"` occurs strictly inside `"+15551234567"` (they are
not equal), and as a block-list entry it declines that caller. -/
theorem c10_witness :
    WhatsAppPlatform.matchPattern (jsToLower "+15551234567".data) (jsToLower "555".data) = true ∧
    WhatsAppPlatform.isCallerAllowed "+15551234567".data ["*".data] ["555".data] = false :=
  ⟨(c10_substring_matching "555".data "+15551234567".data ["*".data] ["555".data]
      (by decide)).1.mpr (by decide),
   (c10_substring_matching "555".data "+15551234567".data ["*".data] ["555".data]
      (by decide)).2 (by decide) (by decide) (by decide)⟩

/-- C4: evaluating `checkCallEnded` with `hasJoinedBefore = false` on a
page showing the ordinary main chat interface (no end-call button, no end
text) reports the call as ended — the flag does not suppress the
UI-disappearance signal, contradicting the documented decision policy. -/
theorem c4_code_bug_eval :
    WhatsAppPlatform.checkCallEnded false
      ⟨"WhatsApp Chats Search or start a new chat".data, false, true, false⟩ = true := by
  decide

end AdapterClaims

section ControllerClaims

open MeetingBot

/-- C1 counterexample: with a waiting-room adapter whose admission wait
resolves ENDED, the recording-start collaborator IS invoked (it runs
unconditionally at startup, before the join), so the claim "the
recording-start collaborator is never invoked for that session" fails. -/
theorem c1_counterexample :
    Ev.startRecording ∈
      (run ⟨true, ⟨true, .ended, false⟩, [], ⟨none, none⟩, false⟩).1 := by
  decide

/-- C1 amended: when admission resolves ENDED or TIMED_OUT the controller
reaches CLEANUP (session record written, exit) with the
has-ever-confirmed-joined flag false, never enters MONITORING and never
starts audio routing; the recording-start collaborator, however, has
already been invoked at startup. -/
theorem c1_amended_waiting_room (env : RunEnv) (h1 : env.initOk = true)
    (h2 : env.adapter.hasWaitForAdmission = true)
    (h3 : env.adapter.admission = .ended ∨ env.adapter.admission = .timeout) :
    (run env).2.hasJoinedMeeting = false ∧
    Ev.writeSession ∈ (run env).1 ∧ Ev.exit 0 ∈ (run env).1 ∧
    Ev.monitorEnter ∉ (run env).1 ∧ Ev.routeAudio ∉ (run env).1 ∧
    Ev.startRecording ∈ (run env).1 := by
  rcases h3 with h3 | h3 <;>
    by_cases hf : env.fsRecordingOk = true <;>
      simp [run, joinMeeting, cleanup, h1, h2, h3, hf, skipOnEmpty, initialState,
        Bool.eq_false_iff.mpr, eq_false_of_ne_true] at *

/-- C1 witness: the amended claim at a concrete ENDED environment. -/
theorem c1_amended_witness :
    (run ⟨true, ⟨true, .ended, false⟩, [], ⟨none, none⟩, false⟩).2.hasJoinedMeeting = false ∧
    Ev.writeSession ∈ (run ⟨true, ⟨true, .ended, false⟩, [], ⟨none, none⟩, false⟩).1 ∧
    Ev.exit 0 ∈ (run ⟨true, ⟨true, .ended, false⟩, [], ⟨none, none⟩, false⟩).1 ∧
    Ev.monitorEnter ∉ (run ⟨true, ⟨true, .ended, false⟩, [], ⟨none, none⟩, false⟩).1 ∧
    Ev.routeAudio ∉ (run ⟨true, ⟨true, .ended, false⟩, [], ⟨none, none⟩, false⟩).1 ∧
    Ev.startRecording ∈ (run ⟨true, ⟨true, .ended, false⟩, [], ⟨none, none⟩, false⟩).1 :=
  c1_amended_waiting_room ⟨true, ⟨true, .ended, false⟩, [], ⟨none, none⟩, false⟩
    rfl rfl (Or.inl rfl)

/-- C2 counterexample: when the browser attach fails at startup, the
one-shot meeting bot exits with status 0 (not non-zero) and a session
record IS written (to the fallback path), refuting the claim. -/
theorem c2_counterexample :
    exitCode (run ⟨false, ⟨false, .notWaiting, false⟩, [], ⟨none, none⟩, false⟩).1 = some 0 ∧
    Ev.writeSession ∈ (run ⟨false, ⟨false, .notWaiting, false⟩, [], ⟨none, none⟩, false⟩).1 := by
  decide

/-- C2 amended: the watcher daemon exits with status 1 and no session
record when the browser attach fails; the one-shot meeting bot instead
catches the failure, runs cleanup — which writes a session record — and
exits 0. -/
theorem c2_amended_attach_failure :
    (∀ wenv : WhatsAppWatcher.StartEnv, wenv.connectOk = false →
      (WhatsAppWatcher.runStartup wenv).2 = .exitedWith 1 ∧
      exitCode (WhatsAppWatcher.runStartup wenv).1 = some 1 ∧
      Ev.writeSession ∉ (WhatsAppWatcher.runStartup wenv).1) ∧
    (∀ env : RunEnv, env.initOk = false →
      exitCode (run env).1 = some 0 ∧ Ev.writeSession ∈ (run env).1) := by
  constructor
  · intro wenv h
    simp [WhatsAppWatcher.runStartup, h, exitCode]
  · intro env h
    simp [run, h, cleanup, initialState, exitCode, skipOnEmpty]

/-- C2 witness: both halves of the amended claim at concrete attach
failures. -/
theorem c2_amended_witness :
    ((WhatsAppWatcher.runStartup ⟨false, true, true⟩).2 = .exitedWith 1 ∧
      exitCode (WhatsAppWatcher.runStartup ⟨false, true, true⟩).1 = some 1 ∧
      Ev.writeSession ∉ (WhatsAppWatcher.runStartup ⟨false, true, true⟩).1) ∧
    (exitCode (run ⟨false, ⟨false, .notWaiting, true⟩, [], ⟨none, none⟩, true⟩).1 = some 0 ∧
      Ev.writeSession ∈ (run ⟨false, ⟨false, .notWaiting, true⟩, [], ⟨none, none⟩, true⟩).1) :=
  ⟨c2_amended_attach_failure.1 ⟨false, true, true⟩ rfl,
   c2_amended_attach_failure.2 ⟨false, ⟨false, .notWaiting, true⟩, [], ⟨none, none⟩, true⟩ rfl⟩

/-- C3 counterexample: a `checkMeetingEnded` probe that throws on the
first monitoring tick is NOT retried on the next tick — only one tick is
ever processed and the session ends through cleanup (session record
written, exit). -/
theorem c3_counterexample :
    ((run ⟨true, ⟨false, .notWaiting, true⟩,
        [⟨.error (), .ok (-1)⟩, ⟨.ok false, .ok 0⟩], ⟨none, none⟩, true⟩).1.count
      Ev.monitorTick = 1) ∧
    Ev.writeSession ∈ (run ⟨true, ⟨false, .notWaiting, true⟩,
        [⟨.error (), .ok (-1)⟩, ⟨.ok false, .ok 0⟩], ⟨none, none⟩, true⟩).1 ∧
    Ev.exit 0 ∈ (run ⟨true, ⟨false, .notWaiting, true⟩,
        [⟨.error (), .ok (-1)⟩, ⟨.ok false, .ok 0⟩], ⟨none, none⟩, true⟩).1 := by
  decide

/-- C3 amended: a thrown `getParticipantCount` is caught inside the tick
and ignored (the tick completes with no state change and polling
continues); a thrown `checkMeetingEnded` aborts the monitor loop
un-retried and propagates to `run`'s top-level catch, which ends the
session via cleanup. -/
theorem c3_amended_monitor_throw :
    (∀ (cfg : MeetingConfig) (st : BotState) (obs : TickObs),
      obs.checkEnded = .ok false → obs.partCount = .error () →
      monitorTick cfg st obs = .next { st with now := st.now + pollIntervalMs }) ∧
    (∀ (cfg : MeetingConfig) (fsOk : Bool) (st : BotState) (obs : TickObs)
        (rest : List TickObs),
      obs.checkEnded = .error () → st.isInMeeting = true →
      monitorLoop cfg fsOk st (obs :: rest) =
        ([Ev.monitorTick], { st with now := st.now + pollIntervalMs }, true)) ∧
    (∀ env : RunEnv, env.initOk = true → env.adapter.hasWaitForAdmission = false →
      env.adapter.verifyInMeeting = true →
      (∃ obs rest, env.ticks = obs :: rest ∧ obs.checkEnded = .error ()) →
      Ev.writeSession ∈ (run env).1 ∧ Ev.exit 0 ∈ (run env).1) := by
  refine ⟨?_, ?_, ?_⟩
  · intro cfg st obs he hp
    simp [monitorTick, he, hp]
  · intro cfg fsOk st obs rest he hin
    simp [monitorLoop, monitorTick, he, hin]
  · intro env h1 h2 h3 ⟨obs, rest, hts, he⟩
    by_cases hf : env.fsRecordingOk = true <;>
      simp [run, joinMeeting, joinVerify, monitorMeeting, monitorLoop, monitorTick,
        cleanup, h1, h2, h3, hts, he, hf, skipOnEmpty, initialState]

/-- C3 witness: the amended claim's three parts at concrete inputs. -/
theorem c3_witness :
    (monitorTick ⟨none, none⟩ ⟨true, true, false, none, true, 0⟩ ⟨.ok false, .error ()⟩ =
      .next ⟨true, true, false, none, true, 5000⟩) ∧
    (monitorLoop ⟨none, none⟩ true ⟨true, true, false, none, true, 0⟩
        [⟨.error (), .ok 0⟩, ⟨.ok false, .ok 0⟩] =
      ([Ev.monitorTick], ⟨true, true, false, none, true, 5000⟩, true)) ∧
    (Ev.writeSession ∈ (run ⟨true, ⟨false, .notWaiting, true⟩,
        [⟨.error (), .ok 0⟩], ⟨none, none⟩, true⟩).1 ∧
      Ev.exit 0 ∈ (run ⟨true, ⟨false, .notWaiting, true⟩,
        [⟨.error (), .ok 0⟩], ⟨none, none⟩, true⟩).1) :=
  ⟨c3_amended_monitor_throw.1 ⟨none, none⟩ ⟨true, true, false, none, true, 0⟩
      ⟨.ok false, .error ()⟩ rfl rfl,
   c3_amended_monitor_throw.2.1 ⟨none, none⟩ true ⟨true, true, false, none, true, 0⟩
      ⟨.error (), .ok 0⟩ [⟨.ok false, .ok 0⟩] rfl rfl,
   c3_amended_monitor_throw.2.2 ⟨true, ⟨false, .notWaiting, true⟩,
      [⟨.error (), .ok 0⟩], ⟨none, none⟩, true⟩ rfl rfl rfl
      ⟨⟨.error (), .ok 0⟩, [], rfl, rfl⟩⟩

/-- C6: on a poll tick where the meeting has not ended, a positive
participant count resets the empty timer to null, and a count of `-1`
leaves the entire session state unchanged (only the clock advances). -/
theorem c6_empty_timer_frame (cfg : MeetingConfig) (st : BotState) (obs : TickObs)
    (hend : obs.checkEnded = .ok false) :
    (∀ n : Int, obs.partCount = .ok n → 0 < n →
      monitorTick cfg st obs =
        .next { st with now := st.now + pollIntervalMs, emptyMeetingSince := none }) ∧
    (obs.partCount = .ok (-1) →
      monitorTick cfg st obs = .next { st with now := st.now + pollIntervalMs }) := by
  constructor
  · intro n hp hpos
    have hn0 : ¬(n = 0) := by omega
    simp [monitorTick, hend, hp, hn0, hpos]
  · intro hp
    simp [monitorTick, hend, hp]

/-- C6 witness: both parts at a concrete state with a running empty
timer. -/
theorem c6_witness :
    (monitorTick ⟨none, none⟩ ⟨true, true, false, some 7, true, 100⟩ ⟨.ok false, .ok 3⟩ =
      .next ⟨true, true, false, none, true, 5100⟩) ∧
    (monitorTick ⟨none, none⟩ ⟨true, true, false, some 7, true, 100⟩ ⟨.ok false, .ok (-1)⟩ =
      .next ⟨true, true, false, some 7, true, 5100⟩) :=
  ⟨(c6_empty_timer_frame ⟨none, none⟩ ⟨true, true, false, some 7, true, 100⟩
      ⟨.ok false, .ok 3⟩ rfl).1 3 rfl (by decide),
   (c6_empty_timer_frame ⟨none, none⟩ ⟨true, true, false, some 7, true, 100⟩
      ⟨.ok false, .ok (-1)⟩ rfl).2 rfl⟩

end ControllerClaims

section C5Claims

open MeetingBot

/-- Helper for C5: once the empty timer is running and every remaining
poll observes zero participants, the timeout fires within the stream and
the loop ends through cleanup with the emptied-out flag set, having
emitted only poll-tick events before the cleanup events. -/
theorem monitorLoop_allzero (cfg : MeetingConfig) (fsOk : Bool) :
    ∀ (ticks : List TickObs) (st : BotState) (s : Nat),
      st.isInMeeting = true → st.emptyMeetingSince = some s → s ≤ st.now →
      st.now < s + emptyTimeoutMs cfg →
      s + emptyTimeoutMs cfg ≤ st.now + pollIntervalMs * ticks.length →
      (∀ o ∈ ticks, o.checkEnded = .ok false ∧ o.partCount = .ok 0) →
      ∃ n st',
        monitorLoop cfg fsOk st ticks =
          (List.replicate n Ev.monitorTick ++ (cleanup cfg fsOk st').1,
            (cleanup cfg fsOk st').2, false) ∧
        st'.leftDueToEmptyTimeout = true ∧ st'.isInMeeting = false ∧
        st'.recordingPath = st.recordingPath ∧ 1 ≤ n := by
  intro ticks
  induction ticks with
  | nil =>
    intro st s h1 h2 h3 h4 h5 h6
    exfalso
    simp only [List.length_nil, Nat.mul_zero, Nat.add_zero] at h5
    omega
  | cons obs rest ih =>
    intro st s h1 h2 h3 h4 h5 h6
    obtain ⟨he, hp⟩ := h6 obs (List.mem_cons_self obs rest)
    by_cases hfire : st.now + pollIntervalMs - s ≥ emptyTimeoutMs cfg
    · refine ⟨1,
        { st with now := st.now + pollIntervalMs,
                  isInMeeting := false,
                  leftDueToEmptyTimeout := true },
        ?_, rfl, rfl, rfl, Nat.le_refl 1⟩
      simp [monitorLoop, monitorTick, h1, he, hp, h2, hfire]
    · have hstep : monitorTick cfg st obs =
          .next { st with now := st.now + pollIntervalMs } := by
        simp [monitorTick, he, hp, h2, hfire]
      have h4' : st.now + pollIntervalMs < s + emptyTimeoutMs cfg := by
        simp only [pollIntervalMs] at hfire ⊢
        omega
      have h5' : s + emptyTimeoutMs cfg ≤
          (st.now + pollIntervalMs) + pollIntervalMs * rest.length := by
        simp only [List.length_cons, pollIntervalMs] at h5 ⊢
        omega
      obtain ⟨n, st', hres, ha, hb, hc, hn⟩ :=
        ih { st with now := st.now + pollIntervalMs } s h1 h2 (by
          simp only [pollIntervalMs]; omega) h4' h5'
          (fun o ho => h6 o (List.mem_cons_of_mem obs ho))
      refine ⟨n + 1, st', ?_, ha, hb, hc, by omega⟩
      simp only [h1] at hstep hres
      simp [monitorLoop, h1, hstep, hres, List.replicate_succ]

/-- The resolved empty-timeout minutes are always positive (a configured
`0` falls back to the default 15 through JS `||`). -/
theorem resolvedEmptyTimeoutMinutes_pos (cfg : MeetingBot.MeetingConfig) :
    1 ≤ MeetingBot.resolvedEmptyTimeoutMinutes cfg := by
  rcases hmt : cfg.emptyTimeoutMinutes with - | n
  · simp [MeetingBot.resolvedEmptyTimeoutMinutes, hmt]
  · by_cases h0 : n = 0
    · subst h0
      simp [MeetingBot.resolvedEmptyTimeoutMinutes, hmt]
    · have hb : (n == 0) = false := by simpa using h0
      simp [MeetingBot.resolvedEmptyTimeoutMinutes, hmt, hb]
      omega

/-- C5: if every poll of the monitoring loop observes zero participants
and the stream spans at least the configured empty timeout, the loop ends
with the distinct emptied-out flag set (and leaves MONITORING), and —
under the default skip-transcription-on-empty policy, with a recording on
disk — transcription is never invoked and the recording file is deleted
before cleanup completes (the exit). -/
theorem c5_empty_timeout (cfg : MeetingConfig) (st : BotState) (ticks : List TickObs)
    (hin : st.isInMeeting = true) (hsince : st.emptyMeetingSince = none)
    (hrp : st.recordingPath = true) (hskip : skipOnEmpty cfg = true)
    (hall : ∀ o ∈ ticks, o.checkEnded = .ok false ∧ o.partCount = .ok 0)
    (hlen : 12 * resolvedEmptyTimeoutMinutes cfg + 1 ≤ ticks.length) :
    (monitorMeeting cfg true st ticks).2.1.leftDueToEmptyTimeout = true ∧
    (monitorMeeting cfg true st ticks).2.1.isInMeeting = false ∧
    Ev.transcribe ∉ (monitorMeeting cfg true st ticks).1 ∧
    (monitorMeeting cfg true st ticks).2.2 = false ∧
    ∃ pre, (monitorMeeting cfg true st ticks).1 =
      pre ++ [Ev.stopRecording, Ev.deleteRecording, Ev.writeSession, Ev.exit 0] := by
  have hres1 := resolvedEmptyTimeoutMinutes_pos cfg
  cases ticks with
  | nil =>
    exfalso
    simp only [List.length_nil] at hlen
    omega
  | cons obs rest =>
    obtain ⟨he, hp⟩ := hall obs (List.mem_cons_self obs rest)
    have hstep : monitorTick cfg { st with now := st.now + 10000 } obs =
        .next { st with now := st.now + 10000 + pollIntervalMs,
                        emptyMeetingSince := some (st.now + 10000 + pollIntervalMs) } := by
      simp [monitorTick, he, hp, hsince]
    have hTpos : 0 < emptyTimeoutMs cfg := by
      unfold emptyTimeoutMs
      omega
    have harith2 : (st.now + 10000 + pollIntervalMs) + emptyTimeoutMs cfg ≤
        (st.now + 10000 + pollIntervalMs) + pollIntervalMs * rest.length := by
      unfold emptyTimeoutMs pollIntervalMs
      simp only [List.length_cons] at hlen
      omega
    obtain ⟨n, st', hres2, ha, hb, hc, hn⟩ := monitorLoop_allzero cfg true rest
      { st with now := st.now + 10000 + pollIntervalMs,
                emptyMeetingSince := some (st.now + 10000 + pollIntervalMs) }
      (st.now + 10000 + pollIntervalMs)
      hin rfl (Nat.le_refl _)
      (by show st.now + 10000 + pollIntervalMs <
            st.now + 10000 + pollIntervalMs + emptyTimeoutMs cfg
          omega)
      harith2
      (fun o ho => hall o (List.mem_cons_of_mem obs ho))
    have hloop : monitorLoop cfg true { st with now := st.now + 10000 } (obs :: rest) =
        (Ev.monitorTick :: (List.replicate n Ev.monitorTick ++ (cleanup cfg true st').1),
          (cleanup cfg true st').2, false) := by
      simp only [hin] at hstep hres2
      simp [monitorLoop, hin, hstep, hres2]
    have hrp' : st'.recordingPath = true := by rw [hc]; exact hrp
    have hclean : (cleanup cfg true st').1 =
        [Ev.stopRecording, Ev.deleteRecording, Ev.writeSession, Ev.exit 0] := by
      simp [cleanup, ha, hskip, hrp']
    have hmm : monitorMeeting cfg true st (obs :: rest) =
        (Ev.monitorEnter :: Ev.monitorTick ::
            (List.replicate n Ev.monitorTick ++ (cleanup cfg true st').1),
          (cleanup cfg true st').2, false) := by
      simp [monitorMeeting, hloop]
    refine ⟨?_, ?_, ?_, ?_, ?_⟩
    · rw [hmm]
      simp [cleanup, ha]
    · rw [hmm]
      simp [cleanup, hb]
    · rw [hmm, hclean]
      simp [List.mem_append, List.mem_replicate]
    · rw [hmm]
    · refine ⟨Ev.monitorEnter :: Ev.monitorTick :: List.replicate n Ev.monitorTick, ?_⟩
      rw [hmm, hclean]
      simp

/-- C5 witness: the default 15-minute timeout with the default policy at
a concrete all-zero stream of 181 five-second polls. -/
theorem c5_witness :
    (monitorMeeting ⟨none, none⟩ true ⟨true, true, false, none, true, 0⟩
        (List.replicate 181 ⟨.ok false, .ok 0⟩)).2.1.leftDueToEmptyTimeout = true ∧
    (monitorMeeting ⟨none, none⟩ true ⟨true, true, false, none, true, 0⟩
        (List.replicate 181 ⟨.ok false, .ok 0⟩)).2.1.isInMeeting = false ∧
    Ev.transcribe ∉ (monitorMeeting ⟨none, none⟩ true ⟨true, true, false, none, true, 0⟩
        (List.replicate 181 ⟨.ok false, .ok 0⟩)).1 ∧
    (monitorMeeting ⟨none, none⟩ true ⟨true, true, false, none, true, 0⟩
        (List.replicate 181 ⟨.ok false, .ok 0⟩)).2.2 = false ∧
    ∃ pre, (monitorMeeting ⟨none, none⟩ true ⟨true, true, false, none, true, 0⟩
        (List.replicate 181 ⟨.ok false, .ok 0⟩)).1 =
      pre ++ [Ev.stopRecording, Ev.deleteRecording, Ev.writeSession, Ev.exit 0] :=
  c5_empty_timeout ⟨none, none⟩ ⟨true, true, false, none, true, 0⟩
    (List.replicate 181 ⟨.ok false, .ok 0⟩) rfl rfl rfl rfl
    (fun o ho => by rw [List.eq_of_mem_replicate ho]; exact ⟨rfl, rfl⟩)
    (by rw [List.length_replicate]; decide)

end C5Claims
